import Mathlib

/-!
# Verification of the IBC wastewater treatment controller and its configuration panel

Shallow embedding of the IBC (Tayer007/IBC) wastewater treatment system.
The repository ships the React frontend (`frontend/src/components/*.jsx`), whose
`ConfigPanel` (in `StatusCard.jsx`) is embedded below directly from the source.
The Python backend controller (`backend/controller/treatment_controller.py`) is
documented by the repository's READMEs and the design specification but its
source is not part of the checkout; the controller, safety monitor, phase state
machine and command surface are therefore modelled from the specification
(definitions marked `Modelled from the spec:`).

JavaScript numbers are modelled as `ℚ` (for sensor levels and minute/second
durations) or `ℤ`/`ℕ` (for counters); a failed `parseInt`/`parseFloat` (NaN)
is modelled as `none : Option _`.
-/

namespace IBC

/-! ## Frontend `ConfigPanel` (frontend/src/components/StatusCard.jsx) -/

/-- The twelve keys of the ConfigPanel `phaseDurations` state object. -/
inductive PhaseKey
  | t_z1 | t_d1 | t_n1
  | t_z2 | t_d2 | t_n2
  | t_z3 | t_d3 | t_n3
  | t_sed | t_abzug | t_still
deriving DecidableEq, Repr

/-- The four keys of the ConfigPanel `aerationSettings` state object. -/
inductive AerationKey
  | t_luftan | t_luftpause | t_stossan | t_stosspause
deriving DecidableEq, Repr

/-- `convertToSeconds` from ConfigPanel: minutes to seconds. -/
def convertToSeconds (minutes : ℚ) : ℚ := minutes * 60

/-- The validation error message shown by `handlePhaseChange`/`handleAerationChange`. -/
def invalidNumberMsg : String := "Bitte eine Zahl zwischen 0 und 999 eingeben"

/-- `handlePhaseChange` from ConfigPanel.  The `parseFloat` of the raw input is
modelled as `Option ℚ` (`none` = NaN).  On NaN or negative input the stored
durations are untouched and an error message is recorded for the key; otherwise
the value, converted to seconds, is stored at exactly that key and the key's
error is cleared. -/
def handlePhaseChange (key : PhaseKey) (valueInMinutes : Option ℚ)
    (phaseDurations : PhaseKey → ℚ) (errors : PhaseKey → String) :
    (PhaseKey → ℚ) × (PhaseKey → String) :=
  match valueInMinutes with
  | none => (phaseDurations, Function.update errors key invalidNumberMsg)
  | some value =>
      if value < 0 then
        (phaseDurations, Function.update errors key invalidNumberMsg)
      else
        (Function.update phaseDurations key (convertToSeconds value),
         Function.update errors key "")

/-- `handleAerationChange` from ConfigPanel; same validation as
`handlePhaseChange` but over the aeration-settings keys. -/
def handleAerationChange (key : AerationKey) (valueInMinutes : Option ℚ)
    (aerationSettings : AerationKey → ℚ) (errors : AerationKey → String) :
    (AerationKey → ℚ) × (AerationKey → String) :=
  match valueInMinutes with
  | none => (aerationSettings, Function.update errors key invalidNumberMsg)
  | some value =>
      if value < 0 then
        (aerationSettings, Function.update errors key invalidNumberMsg)
      else
        (Function.update aerationSettings key (convertToSeconds value),
         Function.update errors key "")

/-- `calculateActiveDuration` from ConfigPanel: sum of the configured phase
durations over the active cycles.  Cycles 3, 4, ..., `numCycles` all use the
cycle-3 durations (`additionalCycles = numCycles - 2`), and the final phases
are always added. -/
def calculateActiveDuration (numCycles : ℕ) (pd : PhaseKey → ℚ) : ℚ :=
  let total : ℚ := 0
  let total := if 1 ≤ numCycles then total + (pd .t_z1 + pd .t_d1 + pd .t_n1) else total
  let total := if 2 ≤ numCycles then total + (pd .t_z2 + pd .t_d2 + pd .t_n2) else total
  let total :=
    if 3 ≤ numCycles then
      total + (pd .t_z3 + pd .t_d3 + pd .t_n3) * ((numCycles : ℚ) - 2)
    else total
  total + (pd .t_sed + pd .t_abzug + pd .t_still)

/-- JavaScript `x || d` over an integer parse result: `none` models NaN,
and `0` is falsy, so both fall through to the default. -/
def jsOrDefault (x : Option ℤ) (d : ℤ) : ℤ :=
  match x with
  | none => d
  | some v => if v = 0 then d else v

/-- The `onChange` handler of the "Anzahl Zyklen" input:
`Math.max(0, Math.min(9999, parseInt(v) || 0))`. -/
def numCyclesOnChange (parsed : Option ℤ) : ℤ :=
  max 0 (min 9999 (jsOrDefault parsed 0))

/-- The `onChange` handler of the "Wiederholungen" input:
`Math.max(1, parseInt(v) || 1)`. -/
def cycleRepetitionsOnChange (parsed : Option ℤ) : ℤ :=
  max 1 (jsOrDefault parsed 1)

/-- Sample phase-duration table used to instantiate universally quantified
theorems at concrete values. -/
def pdSample : PhaseKey → ℚ
  | .t_z1 => 1 | .t_d1 => 2 | .t_n1 => 3
  | .t_z2 => 4 | .t_d2 => 5 | .t_n2 => 6
  | .t_z3 => 7 | .t_d3 => 8 | .t_n3 => 9
  | .t_sed => 10 | .t_abzug => 11 | .t_still => 12

/-- Empty error table over the phase keys. -/
def erSample : PhaseKey → String := fun _ => ""

/-- Sample aeration-settings table. -/
def aeSample : AerationKey → ℚ := fun _ => 0

/-- Empty error table over the aeration keys. -/
def er2Sample : AerationKey → String := fun _ => ""

/-! ## Spec-modelled treatment controller

The backend controller source (`backend/controller/treatment_controller.py`) is
not part of the checkout; the definitions below are modelled from the design
specification (data model §3, safety monitor §4.1, phase state machine §4.2,
control loop §4.3, command surface §4.4). -/

/-- The logical actuator identifiers exposed by the hardware capability
interface (the three components shown by `ComponentStatus.jsx`). -/
inductive ActuatorId
  | inlet_pump | drain_valve | blower
deriving DecidableEq, Repr

/-- A total mapping from actuator ids, represented with one field per
actuator. -/
structure ActuatorMap (α : Type) where
  inlet_pump : α
  drain_valve : α
  blower : α
deriving DecidableEq, Repr

/-- Look up one actuator's entry. -/
def ActuatorMap.get {α : Type} (m : ActuatorMap α) : ActuatorId → α
  | .inlet_pump => m.inlet_pump
  | .drain_valve => m.drain_valve
  | .blower => m.blower

/-- Replace one actuator's entry. -/
def ActuatorMap.set {α : Type} (m : ActuatorMap α) : ActuatorId → α → ActuatorMap α
  | .inlet_pump, v => { m with inlet_pump := v }
  | .drain_valve, v => { m with drain_valve := v }
  | .blower, v => { m with blower := v }

/-- The constant mapping. -/
def ActuatorMap.const {α : Type} (v : α) : ActuatorMap α := ⟨v, v, v⟩

/-- Modelled from the spec: the phase enumeration of the state machine (§4.2),
with the per-cycle triplet indexed by the 1-based feed-cycle number, using the
phase names shown by `PhaseTimeline.jsx`. -/
inductive Phase
  | idle
  | zulauf (i : ℕ)
  | unbelueftet (i : ℕ)
  | belueftung (i : ℕ)
  | sedimentation
  | klarwasserabzug
  | stillstand
  | emergency_stop
  | error
deriving DecidableEq, Repr

/-- Aeration sub-mode of aerated phases (§4.2). -/
inductive AerationMode
  | continuous | pulse
deriving DecidableEq, Repr

/-- Modelled from the spec: safety thresholds of `PhaseConfig` (§3, §4.1), with
the default values of `treatment_config.yaml` documented in the README
(`high_level_alarm: 15`, `low_level_alarm: 120`, `max_cycle_duration: 43200`).
Levels are distance-from-sensor in centimeters. -/
structure SafetyConfig where
  highLevelAlarm : ℚ
  lowLevelAlarm : ℚ
  maxCycleDuration : ℕ
  maxRuntime : ActuatorMap ℕ
deriving DecidableEq, Repr

/-- Modelled from the spec: the immutable `PhaseConfig` snapshot (§3): phase
durations in seconds, cycle counts, aeration sub-mode timing, safety
thresholds, sample interval, and the per-actuator minimum interval between
manual starts (§4.3). -/
structure PhaseConfig where
  t_z1 : ℕ
  t_d1 : ℕ
  t_n1 : ℕ
  t_z2 : ℕ
  t_d2 : ℕ
  t_n2 : ℕ
  t_z3 : ℕ
  t_d3 : ℕ
  t_n3 : ℕ
  t_sed : ℕ
  t_abzug : ℕ
  t_still : ℕ
  numCycles : ℕ
  cycleRepetitions : ℕ
  aerationMode : AerationMode
  t_stossan : ℕ
  t_stosspause : ℕ
  safety : SafetyConfig
  sampleInterval : ℕ
  minStartInterval : ℕ
deriving DecidableEq, Repr

/-- Modelled from the spec: `CycleState` (§3).  Timestamps are absolute
seconds; elapsed time is derived from `phaseEnteredAt`/`cycleStartedAt` minus
the accumulated paused-duration offsets (`phasePausedTotal`, `pausedTotal`),
never stored as counters.  `pausedAt` records when the current pause began. -/
structure CycleState where
  phase : Phase
  repetition : ℕ
  running : Bool
  paused : Bool
  emergencyStopped : Bool
  phaseEnteredAt : ℕ
  cycleStartedAt : ℕ
  phasePausedTotal : ℕ
  pausedTotal : ℕ
  pausedAt : Option ℕ
  actuatorState : ActuatorMap Bool
  actuatorRuntime : ActuatorMap ℕ
  lastStartAt : ActuatorMap (Option ℕ)
  lastLevel : ℚ
  cyclesCompleted : ℕ
  totalRuntime : ℕ
deriving DecidableEq, Repr

/-- Modelled from the spec: elapsed seconds in the current phase, derived as
`now - phaseEnteredAt - phasePausedTotal`; while paused the clock is frozen at
the pause instant (§4.2 pause/resume). -/
def phaseElapsed (s : CycleState) (now : ℕ) : ℕ :=
  match s.pausedAt with
  | some t0 => t0 - s.phaseEnteredAt - s.phasePausedTotal
  | none => now - s.phaseEnteredAt - s.phasePausedTotal

/-- Modelled from the spec: elapsed seconds in the current cycle, with the
accumulated paused duration subtracted. -/
def cycleElapsed (s : CycleState) (now : ℕ) : ℕ :=
  match s.pausedAt with
  | some t0 => t0 - s.cycleStartedAt - s.pausedTotal
  | none => now - s.cycleStartedAt - s.pausedTotal

/-- Direction of a level alarm. -/
inductive LevelKind
  | high | low
deriving DecidableEq, Repr

/-- Modelled from the spec: the Safety Monitor verdict (§4.1). -/
inductive Verdict
  | Ok
  | LevelAlarm (kind : LevelKind)
  | RuntimeExceeded (actuator : ActuatorId)
  | CycleTimeout
deriving DecidableEq, Repr

/-- Modelled from the spec: the Safety Monitor (§4.1).  Level is
distance-from-sensor, so the high-level alarm fires on a *small* reading
(`level < highLevelAlarm`) and the low-level alarm on a *large* one
(`level > lowLevelAlarm`); an actuator runtime strictly above its configured
maximum yields `RuntimeExceeded`, a cycle elapsed time strictly above
`maxCycleDuration` yields `CycleTimeout`, and otherwise the verdict is `Ok`. -/
def evaluateSafety (cfg : SafetyConfig) (level : ℚ) (runtime : ActuatorMap ℕ)
    (cycElapsed : ℕ) : Verdict :=
  if level < cfg.highLevelAlarm then .LevelAlarm .high
  else if cfg.lowLevelAlarm < level then .LevelAlarm .low
  else if cfg.maxRuntime.inlet_pump < runtime.inlet_pump then .RuntimeExceeded .inlet_pump
  else if cfg.maxRuntime.drain_valve < runtime.drain_valve then .RuntimeExceeded .drain_valve
  else if cfg.maxRuntime.blower < runtime.blower then .RuntimeExceeded .blower
  else if cfg.maxCycleDuration < cycElapsed then .CycleTimeout
  else .Ok

/-- Modelled from the spec: per-phase configured duration; feed-cycle indices
beyond the 3rd reuse the 3rd profile's durations (§4.2). -/
def phaseDuration (cfg : PhaseConfig) : Phase → ℕ
  | .zulauf i => if i ≤ 1 then cfg.t_z1 else if i = 2 then cfg.t_z2 else cfg.t_z3
  | .unbelueftet i => if i ≤ 1 then cfg.t_d1 else if i = 2 then cfg.t_d2 else cfg.t_d3
  | .belueftung i => if i ≤ 1 then cfg.t_n1 else if i = 2 then cfg.t_n2 else cfg.t_n3
  | .sedimentation => cfg.t_sed
  | .klarwasserabzug => cfg.t_abzug
  | .stillstand => cfg.t_still
  | _ => 0

/-- Modelled from the spec: blower schedule during aerated phases —
`continuous` keeps the blower on, `pulse` alternates on/off with the
`t_stossan`/`t_stosspause` sub-timers (§4.2). -/
def aerationOn (cfg : PhaseConfig) (elapsed : ℕ) : Bool :=
  match cfg.aerationMode with
  | .continuous => true
  | .pulse => elapsed % (cfg.t_stossan + cfg.t_stosspause) < cfg.t_stossan

/-- Modelled from the spec: the actuator set asserted by each phase (§4.2):
feed drives the inlet pump, aerated phases the blower per sub-mode, draining
the drain valve, all other phases keep every actuator off. -/
def phaseActuators (cfg : PhaseConfig) (p : Phase) (elapsed : ℕ) : ActuatorMap Bool :=
  match p with
  | .zulauf _ => ⟨true, false, false⟩
  | .belueftung _ => ⟨false, false, aerationOn cfg elapsed⟩
  | .klarwasserabzug => ⟨false, true, false⟩
  | _ => ⟨false, false, false⟩

/-- Modelled from the spec: entering a phase records the entry time, resets the
phase paused-offset and applies the phase's entry actuator set. -/
def enterPhase (cfg : PhaseConfig) (p : Phase) (now : ℕ) (s : CycleState) : CycleState :=
  { s with phase := p, phaseEnteredAt := now, phasePausedTotal := 0,
           actuatorState := phaseActuators cfg p 0 }

/-- Modelled from the spec: one state-machine step of the control loop (§4.2,
§4.3 step 5): if the current phase's completion predicate (elapsed ≥ configured
duration) does not hold, keep driving the phase's actuator set (aeration
sub-mode); otherwise transition along the fixed sequence, restarting the
sequence while repetitions remain and otherwise completing to `idle` with
`cyclesCompleted` incremented and `totalRuntime` accumulated. -/
def advancePhase (cfg : PhaseConfig) (now : ℕ) (s : CycleState) : CycleState :=
  if phaseElapsed s now < phaseDuration cfg s.phase then
    { s with actuatorState := phaseActuators cfg s.phase (phaseElapsed s now) }
  else
    match s.phase with
    | .zulauf i => enterPhase cfg (.unbelueftet i) now s
    | .unbelueftet i => enterPhase cfg (.belueftung i) now s
    | .belueftung i =>
        if i < cfg.numCycles then enterPhase cfg (.zulauf (i + 1)) now s
        else enterPhase cfg .sedimentation now s
    | .sedimentation => enterPhase cfg .klarwasserabzug now s
    | .klarwasserabzug => enterPhase cfg .stillstand now s
    | .stillstand =>
        if s.repetition < cfg.cycleRepetitions then
          enterPhase cfg (.zulauf 1) now { s with repetition := s.repetition + 1 }
        else
          { s with phase := .idle, running := false, paused := false,
                   actuatorState := ActuatorMap.const false,
                   cyclesCompleted := s.cyclesCompleted + 1,
                   totalRuntime := s.totalRuntime + cycleElapsed s now }
    | _ => s

/-- Modelled from the spec: the emergency-stop sequence (§4.2).  The first
element commands every actuator off while the emergency flag is still unset;
the second records `emergency_stop`.  The list is the ordered sequence of
externally observable states, so the flag is never observable while an
actuator is still commanded on. -/
def emergencyStopSteps (s : CycleState) : List CycleState :=
  [{ s with actuatorState := ActuatorMap.const false },
   { s with actuatorState := ActuatorMap.const false,
            emergencyStopped := true, running := false, paused := false,
            pausedAt := none, phase := .emergency_stop }]

/-- Modelled from the spec: the final state of the emergency-stop sequence —
every actuator commanded off, `running=false`, `emergencyStopped=true`, phase
`emergency_stop`. -/
def forceEmergencyStop (s : CycleState) : CycleState :=
  { s with actuatorState := ActuatorMap.const false,
           emergencyStopped := true, running := false, paused := false,
           pausedAt := none, phase := .emergency_stop }

/-- Modelled from the spec: §4.3 step 2 — add the tick interval to the runtime
of every currently-active actuator. -/
def updateRuntimes (st : ActuatorMap Bool) (rt : ActuatorMap ℕ) (dt : ℕ) : ActuatorMap ℕ :=
  ⟨rt.inlet_pump + (if st.inlet_pump then dt else 0),
   rt.drain_valve + (if st.drain_valve then dt else 0),
   rt.blower + (if st.blower then dt else 0)⟩

/-- Modelled from the spec: the Safety Monitor verdict computed by a tick
(§4.3 step 3), after the runtime update, with cycle elapsed time counted only
while a cycle is running. -/
def tickVerdict (cfg : PhaseConfig) (now : ℕ) (level : ℚ) (s : CycleState) : Verdict :=
  evaluateSafety cfg.safety level
    (updateRuntimes s.actuatorState s.actuatorRuntime cfg.sampleInterval)
    (if s.running then cycleElapsed s now else 0)

/-- Modelled from the spec: §4.3 steps 1-2 — record the level reading and add
the tick interval to the runtimes of the active actuators. -/
def tickSensed (cfg : PhaseConfig) (level : ℚ) (s : CycleState) : CycleState :=
  { s with lastLevel := level,
           actuatorRuntime :=
             updateRuntimes s.actuatorState s.actuatorRuntime cfg.sampleInterval }

/-- Modelled from the spec: one tick of the control loop (§4.3): read the
level, update actuator runtimes, evaluate the Safety Monitor; on any non-`Ok`
verdict force an emergency stop and skip the remaining steps; otherwise, if
running and not paused, run the phase state machine. -/
def controlTick (cfg : PhaseConfig) (now : ℕ) (level : ℚ) (s : CycleState) : CycleState :=
  match tickVerdict cfg now level s with
  | .Ok =>
      if s.running = true ∧ s.paused = false then
        advancePhase cfg now (tickSensed cfg level s)
      else tickSensed cfg level s
  | _ => forceEmergencyStop (tickSensed cfg level s)

/-- Modelled from the spec: the operator commands of the command surface
(§4.4, §6). -/
inductive Command
  | start
  | stop
  | pause
  | resume
  | emergencyStop
  | resetEmergency
  | setComponent (a : ActuatorId) (value : Bool)
deriving DecidableEq, Repr

/-- Modelled from the spec: machine-readable rejection reasons (§4.4,
`CommandRejected` of §7). -/
inductive RejectReason
  | already_running
  | not_running
  | already_paused
  | not_paused
  | emergency_active
  | not_emergency_stopped
  | min_start_interval
deriving DecidableEq, Repr

/-- Synchronous result returned to the caller of a command. -/
inductive CmdResult
  | accepted
  | rejected (reason : RejectReason)
deriving DecidableEq, Repr

/-- Modelled from the spec: `start` resets `CycleState` for a new cycle
(carrying forward the cumulative statistics) and enters the first feed
phase. -/
def startCycle (cfg : PhaseConfig) (t : ℕ) (s : CycleState) : CycleState :=
  { s with running := true, paused := false,
           phase := .zulauf 1, repetition := 1,
           phaseEnteredAt := t, cycleStartedAt := t,
           phasePausedTotal := 0, pausedTotal := 0, pausedAt := none,
           actuatorState := phaseActuators cfg (.zulauf 1) 0,
           actuatorRuntime := ActuatorMap.const 0 }

/-- Modelled from the spec: `stop` returns to `idle` with every actuator
commanded off. -/
def stopCycle (s : CycleState) : CycleState :=
  { s with running := false, paused := false, pausedAt := none,
           phase := .idle, actuatorState := ActuatorMap.const false }

/-- Modelled from the spec: `pause` records the pause instant and forces the
actuators to their inactive set; it does not advance or reset the phase
(§4.2). -/
def pauseCycle (t : ℕ) (s : CycleState) : CycleState :=
  { s with paused := true, pausedAt := some t,
           actuatorState := ActuatorMap.const false }

/-- Modelled from the spec: `resume` adds the pause duration to the
paused-duration offsets and re-applies the phase's entry actuator set,
continuing elapsed-time accounting with the same origin (§4.2). -/
def resumeCycle (cfg : PhaseConfig) (t : ℕ) (s : CycleState) : CycleState :=
  match s.pausedAt with
  | some t0 =>
      { s with paused := false, pausedAt := none,
               phasePausedTotal := s.phasePausedTotal + (t - t0),
               pausedTotal := s.pausedTotal + (t - t0),
               actuatorState := phaseActuators cfg s.phase 0 }
  | none => { s with paused := false }

/-- Modelled from the spec: `resetEmergency` clears the emergency flag and
returns to `idle`, never to the phase active at the time of the stop. -/
def resetEmergencyCmd (s : CycleState) : CycleState :=
  { s with emergencyStopped := false, running := false, paused := false,
           pausedAt := none, phase := .idle,
           actuatorState := ActuatorMap.const false }

/-- Modelled from the spec: the per-actuator minimum-interval-between-starts
interlock for manual commands (§4.3): a start is refused while the last
recorded start of that actuator is less than `minStartInterval` seconds old. -/
def interlockViolated (cfg : PhaseConfig) (t : ℕ) (s : CycleState) (a : ActuatorId) : Bool :=
  match s.lastStartAt.get a with
  | some t0 => t < t0 + cfg.minStartInterval
  | none => false

/-- Modelled from the spec: an accepted manual `setComponent` writes directly
to `actuatorState`, bypassing the state machine, and records the start time for
the interlock when switching on. -/
def setComponentCmd (t : ℕ) (s : CycleState) (a : ActuatorId) (value : Bool) : CycleState :=
  { s with actuatorState := s.actuatorState.set a value,
           lastStartAt := if value then s.lastStartAt.set a (some t) else s.lastStartAt }

/-- Modelled from the spec: the command surface (§4.4).  Every command is
validated against the current `CycleState`; an invalid command is rejected with
a machine-readable reason and no state change; `emergencyStop` is always
accepted; manual component commands are accepted only while not running and
not emergency-stopped, subject to the start-interval interlock. -/
def handleCommand (cfg : PhaseConfig) (t : ℕ) (c : Command) (s : CycleState) :
    CmdResult × CycleState :=
  match c with
  | .start =>
      if s.running then (.rejected .already_running, s)
      else if s.emergencyStopped then (.rejected .emergency_active, s)
      else (.accepted, startCycle cfg t s)
  | .stop =>
      if !s.running then (.rejected .not_running, s)
      else (.accepted, stopCycle s)
  | .pause =>
      if !s.running then (.rejected .not_running, s)
      else if s.paused then (.rejected .already_paused, s)
      else (.accepted, pauseCycle t s)
  | .resume =>
      if !s.paused then (.rejected .not_paused, s)
      else (.accepted, resumeCycle cfg t s)
  | .emergencyStop => (.accepted, forceEmergencyStop s)
  | .resetEmergency =>
      if s.emergencyStopped then (.accepted, resetEmergencyCmd s)
      else (.rejected .not_emergency_stopped, s)
  | .setComponent a value =>
      if s.running then (.rejected .already_running, s)
      else if s.emergencyStopped then (.rejected .emergency_active, s)
      else if value && interlockViolated cfg t s a then (.rejected .min_start_interval, s)
      else (.accepted, setComponentCmd t s a value)

/-- The default safety thresholds of `treatment_config.yaml` as documented in
the README (levels in cm distance-from-sensor, durations in seconds); the
blower's maximum runtime is specialised to 100 s for the §8 scenario. -/
def safetyScenario : SafetyConfig :=
  { highLevelAlarm := 15, lowLevelAlarm := 120, maxCycleDuration := 43200,
    maxRuntime := ⟨600, 600, 100⟩ }

/-- Configuration for the §8 runtime scenario: continuous aeration with a long
aerated phase, blower `maxRuntime = 100`, 1-second sample interval. -/
def cfgScenario : PhaseConfig :=
  { t_z1 := 0, t_d1 := 0, t_n1 := 1800,
    t_z2 := 0, t_d2 := 0, t_n2 := 0,
    t_z3 := 900, t_d3 := 900, t_n3 := 1800,
    t_sed := 3600, t_abzug := 3600, t_still := 0,
    numCycles := 1, cycleRepetitions := 1,
    aerationMode := .continuous, t_stossan := 6, t_stosspause := 300,
    safety := safetyScenario, sampleInterval := 1, minStartInterval := 60 }

/-- Scenario start state: the controller is one tick into the first aerated
phase (`belueftung 1`) with the blower on and zero accumulated runtime. -/
def sScenario : CycleState :=
  { phase := .belueftung 1, repetition := 1, running := true, paused := false,
    emergencyStopped := false, phaseEnteredAt := 0, cycleStartedAt := 0,
    phasePausedTotal := 0, pausedTotal := 0, pausedAt := none,
    actuatorState := ⟨false, false, true⟩,
    actuatorRuntime := ActuatorMap.const 0,
    lastStartAt := ActuatorMap.const none,
    lastLevel := 50, cyclesCompleted := 0, totalRuntime := 0 }

/-- The scenario run: tick `n` happens at absolute time `n` seconds with a
constant safe level reading of 50 cm. -/
def simScenario : ℕ → CycleState
  | 0 => sScenario
  | n + 1 => controlTick cfgScenario (n + 1) 50 (simScenario n)

end IBC

namespace IBC

/-! ## Helper lemmas -/

/-- The phase state machine never touches the emergency flag. -/
theorem advancePhase_emergencyStopped (cfg : PhaseConfig) (now : ℕ) (s : CycleState) :
    (advancePhase cfg now s).emergencyStopped = s.emergencyStopped := by
  unfold advancePhase
  split
  · rfl
  · cases s.phase <;> simp only [enterPhase] <;> first | rfl | (split <;> rfl)

/-- A control-loop tick never clears the emergency flag: recovery cannot be
automatic. -/
theorem controlTick_keeps_emergencyStopped (cfg : PhaseConfig) (now : ℕ) (level : ℚ)
    (s : CycleState) (h : s.emergencyStopped = true) :
    (controlTick cfg now level s).emergencyStopped = true := by
  unfold controlTick
  cases hv : tickVerdict cfg now level s
  case Ok =>
    by_cases hc : s.running = true ∧ s.paused = false
    · rw [if_pos hc, advancePhase_emergencyStopped]; exact h
    · rw [if_neg hc]; exact h
  all_goals exact rfl

/-- No command other than `resetEmergency` clears the emergency flag. -/
theorem handleCommand_keeps_emergencyStopped (cfg : PhaseConfig) (t : ℕ)
    (c : Command) (s : CycleState) (hc : c ≠ .resetEmergency)
    (h : s.emergencyStopped = true) :
    ((handleCommand cfg t c s).2).emergencyStopped = true := by
  cases c
  case resetEmergency => exact absurd rfl hc
  case start => cases hr : s.running <;> simp [handleCommand, hr, h]
  case stop =>
      cases hr : s.running <;>
        simp [handleCommand, hr, h, stopCycle]
  case pause =>
      cases hr : s.running <;> cases hp : s.paused <;>
        simp [handleCommand, hr, hp, h, pauseCycle]
  case emergencyStop => simp [handleCommand, forceEmergencyStop]
  case resume =>
      cases hp : s.paused <;> cases hpa : s.pausedAt <;>
        simp [handleCommand, hp, hpa, h, resumeCycle]
  case setComponent a v =>
      cases hr : s.running <;> simp [handleCommand, hr, h]

/-- A rejected command leaves `CycleState` completely unchanged. -/
theorem handleCommand_rejected_no_change (cfg : PhaseConfig) (t : ℕ)
    (c : Command) (s : CycleState) (r : RejectReason)
    (h : (handleCommand cfg t c s).1 = .rejected r) :
    (handleCommand cfg t c s).2 = s := by
  cases c <;> simp only [handleCommand] at h ⊢
  case emergencyStop => exact absurd h (by simp)
  all_goals split_ifs at h ⊢ <;> simp_all

end IBC

namespace IBC

/-! ## Theorems about the ConfigPanel -/

/-- C6: for every configured cycle count `n ≥ 3`, the ConfigPanel's
`calculateActiveDuration` equals
`(t_z1+t_d1+t_n1) + (t_z2+t_d2+t_n2) + (n-2)*(t_z3+t_d3+t_n3) + t_sed + t_abzug + t_still`:
feed cycles 4..n execute with exactly the 3rd cycle's phase durations. -/
theorem calculateActiveDuration_replicates_third_cycle
    (n : ℕ) (pd : PhaseKey → ℚ) (h : 3 ≤ n) :
    calculateActiveDuration n pd =
      (pd .t_z1 + pd .t_d1 + pd .t_n1) + (pd .t_z2 + pd .t_d2 + pd .t_n2) +
        ((n : ℚ) - 2) * (pd .t_z3 + pd .t_d3 + pd .t_n3) +
        pd .t_sed + pd .t_abzug + pd .t_still := by
  have h1 : 1 ≤ n := by omega
  have h2 : 2 ≤ n := by omega
  unfold calculateActiveDuration
  simp only [if_pos h1, if_pos h2, if_pos h]
  ring

/-- Witness for C6 at `n = 5` with the sample duration table. -/
theorem calculateActiveDuration_replicates_third_cycle_witness :
    3 ≤ 5 ∧ calculateActiveDuration 5 pdSample =
      (pdSample .t_z1 + pdSample .t_d1 + pdSample .t_n1) +
        (pdSample .t_z2 + pdSample .t_d2 + pdSample .t_n2) +
        ((5 : ℚ) - 2) * (pdSample .t_z3 + pdSample .t_d3 + pdSample .t_n3) +
        pdSample .t_sed + pdSample .t_abzug + pdSample .t_still :=
  ⟨by norm_num, calculateActiveDuration_replicates_third_cycle 5 pdSample (by norm_num)⟩

/-- C9: the numCycles input handler clamps every parse result into `[0, 9999]`
(NaN becomes 0), the cycleRepetitions handler clamps to at least 1 (NaN becomes
1), and a cycle count of 0 is accepted unchanged at the public boundary. -/
theorem configPanel_cycle_inputs_clamped (p q : Option ℤ) :
    0 ≤ numCyclesOnChange p ∧ numCyclesOnChange p ≤ 9999 ∧
    numCyclesOnChange none = 0 ∧ numCyclesOnChange (some 0) = 0 ∧
    1 ≤ cycleRepetitionsOnChange q ∧ cycleRepetitionsOnChange none = 1 := by
  refine ⟨le_max_left _ _, ?_, by decide, by decide, le_max_left _ _, by decide⟩
  exact max_le (by norm_num) (min_le_left _ _)

/-- C10: the phase-duration and aeration change handlers reject NaN or negative
input, leaving the stored mapping entirely unchanged and recording only an
error message for that key; a non-negative input, converted from minutes to
seconds, is stored for exactly that key, all other keys unchanged. -/
theorem configPanel_change_handlers_validate
    (k : PhaseKey) (ka : AerationKey) (inp : Option ℚ)
    (pd : PhaseKey → ℚ) (er : PhaseKey → String)
    (ae : AerationKey → ℚ) (er2 : AerationKey → String) :
    ((inp = none ∨ ∃ v, inp = some v ∧ v < 0) →
      (handlePhaseChange k inp pd er).1 = pd ∧
      (handlePhaseChange k inp pd er).2 = Function.update er k invalidNumberMsg ∧
      (handleAerationChange ka inp ae er2).1 = ae ∧
      (handleAerationChange ka inp ae er2).2 = Function.update er2 ka invalidNumberMsg) ∧
    (∀ v, inp = some v → 0 ≤ v →
      (handlePhaseChange k inp pd er).1 = Function.update pd k (v * 60) ∧
      (handlePhaseChange k inp pd er).2 = Function.update er k "" ∧
      (handleAerationChange ka inp ae er2).1 = Function.update ae ka (v * 60) ∧
      (handleAerationChange ka inp ae er2).2 = Function.update er2 ka "") := by
  constructor
  · rintro (rfl | ⟨v, rfl, hv⟩)
    · exact ⟨rfl, rfl, rfl, rfl⟩
    · simp [handlePhaseChange, handleAerationChange, if_pos hv]
  · rintro v rfl hv
    simp [handlePhaseChange, handleAerationChange, if_neg (not_lt.mpr hv),
      convertToSeconds]

/-- Witness for C10: a valid input of 2 minutes stores 120 seconds at exactly
the chosen key, and a NaN input leaves the duration table unchanged. -/
theorem configPanel_change_handlers_validate_witness :
    (handlePhaseChange .t_sed (some 2) pdSample erSample).1 =
      Function.update pdSample .t_sed ((2 : ℚ) * 60) ∧
    (handlePhaseChange .t_sed none pdSample erSample).1 = pdSample := by
  constructor
  · exact ((configPanel_change_handlers_validate .t_sed .t_luftan (some 2)
      pdSample erSample aeSample er2Sample).2 2 rfl (by norm_num)).1
  · exact ((configPanel_change_handlers_validate .t_sed .t_luftan none
      pdSample erSample aeSample er2Sample).1 (Or.inl rfl)).1

/-! ## Theorems about the controller (spec-modelled) -/

set_option maxRecDepth 400000 in
/-- C1: on every tick whose Safety Monitor verdict is non-`Ok` the control loop
forces an emergency stop (emergency flag set, not running, phase
`emergency_stop`, all actuators commanded off); a tick never clears the
emergency flag, so no automatic recovery occurs; and in the §8 scenario
(blower `maxRuntime = 100`, continuous aeration), after 100 ticks the blower
runtime is 100 with no alarm, and the 101st tick reports
`RuntimeExceeded(blower)` and leaves the controller in `emergency_stop`. -/
theorem nonOk_verdict_forces_emergency_stop :
    (∀ (cfg : PhaseConfig) (now : ℕ) (level : ℚ) (s : CycleState),
        tickVerdict cfg now level s ≠ .Ok →
        (controlTick cfg now level s).emergencyStopped = true ∧
        (controlTick cfg now level s).running = false ∧
        (controlTick cfg now level s).phase = .emergency_stop ∧
        (controlTick cfg now level s).actuatorState = ActuatorMap.const false) ∧
    (∀ (cfg : PhaseConfig) (now : ℕ) (level : ℚ) (s : CycleState),
        s.emergencyStopped = true →
        (controlTick cfg now level s).emergencyStopped = true) ∧
    ((simScenario 100).actuatorRuntime.blower = 100 ∧
     (simScenario 100).emergencyStopped = false ∧
     tickVerdict cfgScenario 101 50 (simScenario 100) = .RuntimeExceeded .blower ∧
     (simScenario 101).emergencyStopped = true ∧
     (simScenario 101).phase = .emergency_stop ∧
     (simScenario 101).running = false) := by
  refine ⟨?_, controlTick_keeps_emergencyStopped, by decide⟩
  intro cfg now level s h
  unfold controlTick
  cases hv : tickVerdict cfg now level s
  case Ok => exact absurd hv h
  all_goals exact ⟨rfl, rfl, rfl, rfl⟩

set_option maxRecDepth 400000 in
/-- Witness for C1 at the scenario's 101st tick. -/
theorem nonOk_verdict_forces_emergency_stop_witness :
    (controlTick cfgScenario 101 50 (simScenario 100)).emergencyStopped = true :=
  (nonOk_verdict_forces_emergency_stop.1 cfgScenario 101 50 (simScenario 100)
    (by decide)).1

/-- C2: under the distance-from-sensor direction (the configured high threshold
is the smaller distance), every reading strictly below `highLevelAlarm` yields
the high-level alarm verdict and every reading strictly above `lowLevelAlarm`
yields the low-level alarm verdict; concretely, with the configured thresholds
`highLevelAlarm=15` a reading of 10 triggers the high alarm and with
`lowLevelAlarm=120` a reading of 130 triggers the low alarm. -/
theorem safetyMonitor_level_directionality :
    (∀ (cfg : SafetyConfig) (level : ℚ) (rt : ActuatorMap ℕ) (ce : ℕ),
        cfg.highLevelAlarm ≤ cfg.lowLevelAlarm →
        (level < cfg.highLevelAlarm →
          evaluateSafety cfg level rt ce = .LevelAlarm .high) ∧
        (cfg.lowLevelAlarm < level →
          evaluateSafety cfg level rt ce = .LevelAlarm .low)) ∧
    evaluateSafety safetyScenario 10 (ActuatorMap.const 0) 0 = .LevelAlarm .high ∧
    evaluateSafety safetyScenario 130 (ActuatorMap.const 0) 0 = .LevelAlarm .low := by
  refine ⟨?_, by decide, by decide⟩
  intro cfg level rt ce hdir
  constructor
  · intro hlt
    simp [evaluateSafety, if_pos hlt]
  · intro hgt
    have hnot : ¬ level < cfg.highLevelAlarm :=
      not_lt.mpr (le_trans hdir (le_of_lt hgt))
    simp [evaluateSafety, if_neg hnot, if_pos hgt]

/-- Witness for C2 at a reading of 5 cm against the configured thresholds. -/
theorem safetyMonitor_level_directionality_witness :
    evaluateSafety safetyScenario 5 (ActuatorMap.const 0) 0 = .LevelAlarm .high :=
  (safetyMonitor_level_directionality.1 safetyScenario 5 (ActuatorMap.const 0) 0
    (by decide)).1 (by decide)

/-- C3: along the emergency-stop sequence — triggered from any state by the
manual command or by a non-`Ok` tick verdict — every externally observable
state with `emergencyStopped=true` already has every actuator commanded off:
the actuators are commanded off in the step before the flag is recorded, and
the final state has the flag set with all actuators off. -/
theorem emergencyStop_all_off_before_flag_observable :
    (∀ (s obs : CycleState), obs ∈ emergencyStopSteps s →
        obs.emergencyStopped = true → obs.actuatorState = ActuatorMap.const false) ∧
    (∀ s : CycleState, emergencyStopSteps s =
        [{ s with actuatorState := ActuatorMap.const false }, forceEmergencyStop s]) ∧
    (∀ (cfg : PhaseConfig) (t : ℕ) (s : CycleState),
        handleCommand cfg t .emergencyStop s = (.accepted, forceEmergencyStop s)) ∧
    (∀ (cfg : PhaseConfig) (now : ℕ) (level : ℚ) (s : CycleState),
        tickVerdict cfg now level s ≠ .Ok →
        controlTick cfg now level s = forceEmergencyStop (tickSensed cfg level s)) ∧
    (∀ s : CycleState, (forceEmergencyStop s).emergencyStopped = true ∧
        ∀ a : ActuatorId, (forceEmergencyStop s).actuatorState.get a = false) := by
  refine ⟨?_, fun s => rfl, fun cfg t s => rfl, ?_, ?_⟩
  · intro s obs hmem hflag
    simp only [emergencyStopSteps, List.mem_cons, List.mem_singleton,
      List.not_mem_nil, or_false] at hmem
    rcases hmem with rfl | rfl
    · rfl
    · rfl
  · intro cfg now level s h
    unfold controlTick
    cases hv : tickVerdict cfg now level s
    case Ok => exact absurd hv h
    all_goals rfl
  · intro s
    exact ⟨rfl, fun a => by cases a <;> rfl⟩

/-- Witness for C3: the flagged final state of the sequence, from a running
state, has all actuators commanded off. -/
theorem emergencyStop_all_off_before_flag_observable_witness :
    (forceEmergencyStop sScenario).actuatorState = ActuatorMap.const false :=
  emergencyStop_all_off_before_flag_observable.1 sScenario
    (forceEmergencyStop sScenario) (by decide) rfl

/-- C4: from every emergency-stopped state, regardless of the phase active at
the stop, `resetEmergency` is accepted and transitions to `idle` (never to the
interrupted phase) with the flag cleared and the cycle not running; no other
command and no control-loop tick clears the flag, so recovery happens only
through this explicit reset. -/
theorem resetEmergency_returns_to_idle :
    (∀ (cfg : PhaseConfig) (t : ℕ) (s : CycleState), s.emergencyStopped = true →
        handleCommand cfg t .resetEmergency s = (.accepted, resetEmergencyCmd s) ∧
        (resetEmergencyCmd s).phase = .idle ∧
        (resetEmergencyCmd s).emergencyStopped = false ∧
        (resetEmergencyCmd s).running = false) ∧
    (∀ (cfg : PhaseConfig) (t : ℕ) (c : Command) (s : CycleState),
        c ≠ .resetEmergency → s.emergencyStopped = true →
        ((handleCommand cfg t c s).2).emergencyStopped = true) ∧
    (∀ (cfg : PhaseConfig) (now : ℕ) (level : ℚ) (s : CycleState),
        s.emergencyStopped = true →
        (controlTick cfg now level s).emergencyStopped = true) := by
  refine ⟨?_, handleCommand_keeps_emergencyStopped, controlTick_keeps_emergencyStopped⟩
  intro cfg t s h
  refine ⟨?_, rfl, rfl, rfl⟩
  simp [handleCommand, h]

/-- Witness for C4 from the emergency stop of the scenario's running state. -/
theorem resetEmergency_returns_to_idle_witness :
    (resetEmergencyCmd (forceEmergencyStop sScenario)).phase = Phase.idle :=
  ((resetEmergency_returns_to_idle.1 cfgScenario 0
    (forceEmergencyStop sScenario) rfl).2).1

/-- C5: elapsed-time accounting is pause-invariant: from any running, unpaused
state, pausing at `t` and resuming at `t + P` preserves the phase and its entry
time, and at every later instant both the phase and cycle elapsed times (and
hence the remaining time to the phase's configured completion) are exactly
those of the run with no pause, the pause duration being absorbed into the
subtracted paused-duration offset. -/
theorem pause_resume_elapsed_invariant
    (cfg : PhaseConfig) (s : CycleState) (t P d : ℕ)
    (hrun : s.running = true) (hp : s.paused = false) (hpa : s.pausedAt = none)
    (hph : s.phaseEnteredAt + s.phasePausedTotal ≤ t)
    (hcy : s.cycleStartedAt + s.pausedTotal ≤ t) :
    handleCommand cfg t .pause s = (.accepted, pauseCycle t s) ∧
    handleCommand cfg (t + P) .resume (pauseCycle t s) =
      (.accepted, resumeCycle cfg (t + P) (pauseCycle t s)) ∧
    (resumeCycle cfg (t + P) (pauseCycle t s)).phase = s.phase ∧
    (resumeCycle cfg (t + P) (pauseCycle t s)).phaseEnteredAt = s.phaseEnteredAt ∧
    phaseElapsed (resumeCycle cfg (t + P) (pauseCycle t s)) (t + P + d) =
      phaseElapsed s (t + d) ∧
    cycleElapsed (resumeCycle cfg (t + P) (pauseCycle t s)) (t + P + d) =
      cycleElapsed s (t + d) ∧
    phaseDuration cfg s.phase -
        phaseElapsed (resumeCycle cfg (t + P) (pauseCycle t s)) (t + P + d) =
      phaseDuration cfg s.phase - phaseElapsed s (t + d) := by
  have hpe : phaseElapsed (resumeCycle cfg (t + P) (pauseCycle t s)) (t + P + d) =
      phaseElapsed s (t + d) := by
    simp only [resumeCycle, pauseCycle, phaseElapsed, hpa]
    omega
  refine ⟨by simp [handleCommand, hrun, hp], by simp [handleCommand, pauseCycle],
    by simp [resumeCycle, pauseCycle], by simp [resumeCycle, pauseCycle],
    hpe, ?_, by rw [hpe]⟩
  simp only [resumeCycle, pauseCycle, cycleElapsed, hpa]
  omega

/-- Witness for C5: pausing the scenario state at `t = 10` for `P = 7` leaves
the phase elapsed time 3 seconds after the resume equal to that of the
unpaused run at `t = 13`. -/
theorem pause_resume_elapsed_invariant_witness :
    phaseElapsed (resumeCycle cfgScenario 17 (pauseCycle 10 sScenario)) 20 =
      phaseElapsed sScenario 13 :=
  (pause_resume_elapsed_invariant cfgScenario sScenario 10 7 3 rfl rfl rfl
    (by decide) (by decide)).2.2.2.2.1

/-- C7: `setComponent` is rejected with a `CommandRejected` result and no state
change whenever `running=true`; it is accepted only while `running=false`; a
switch-on within the per-actuator minimum start interval is rejected with no
state change; and an accepted command writes the requested value directly to
`actuatorState`, bypassing the state machine (phase and running unchanged). -/
theorem setComponent_manual_control_policy :
    (∀ (cfg : PhaseConfig) (t : ℕ) (s : CycleState) (a : ActuatorId) (v : Bool),
        s.running = true →
        handleCommand cfg t (.setComponent a v) s = (.rejected .already_running, s)) ∧
    (∀ (cfg : PhaseConfig) (t : ℕ) (s : CycleState) (a : ActuatorId) (v : Bool),
        (handleCommand cfg t (.setComponent a v) s).1 = .accepted →
        s.running = false) ∧
    (∀ (cfg : PhaseConfig) (t : ℕ) (s : CycleState) (a : ActuatorId),
        s.running = false → s.emergencyStopped = false →
        interlockViolated cfg t s a = true →
        handleCommand cfg t (.setComponent a true) s =
          (.rejected .min_start_interval, s)) ∧
    (∀ (cfg : PhaseConfig) (t : ℕ) (s : CycleState) (a : ActuatorId) (v : Bool),
        s.running = false → s.emergencyStopped = false →
        (v = true → interlockViolated cfg t s a = false) →
        handleCommand cfg t (.setComponent a v) s =
          (.accepted, setComponentCmd t s a v) ∧
        (setComponentCmd t s a v).actuatorState.get a = v ∧
        (setComponentCmd t s a v).phase = s.phase ∧
        (setComponentCmd t s a v).running = s.running) := by
  refine ⟨?_, ?_, ?_, ?_⟩
  · intro cfg t s a v h
    simp [handleCommand, h]
  · intro cfg t s a v h
    cases hr : s.running
    · rfl
    · simp [handleCommand, hr] at h
  · intro cfg t s a hr he hint
    simp [handleCommand, hr, he, hint]
  · intro cfg t s a v hr he hint
    cases v
    · exact ⟨by simp [handleCommand, hr, he], by cases a <;> rfl, rfl, rfl⟩
    · exact ⟨by simp [handleCommand, hr, he, hint rfl], by cases a <;> rfl, rfl, rfl⟩

/-- Witness for C7: the scenario state is running, so a manual blower command
is rejected unchanged. -/
theorem setComponent_manual_control_policy_witness :
    handleCommand cfgScenario 0 (.setComponent .blower false) sScenario =
      (.rejected .already_running, sScenario) :=
  setComponent_manual_control_policy.1 cfgScenario 0 sScenario .blower false rfl

/-- C8: every command is validated against the current `CycleState`: `start`
while running is rejected with `already_running`, `resume` while not paused
with `not_paused`, every rejected command leaves the state completely
unchanged, and `emergencyStop` is accepted in every state. -/
theorem commands_validated_before_effect :
    (∀ (cfg : PhaseConfig) (t : ℕ) (s : CycleState), s.running = true →
        handleCommand cfg t .start s = (.rejected .already_running, s)) ∧
    (∀ (cfg : PhaseConfig) (t : ℕ) (s : CycleState), s.paused = false →
        handleCommand cfg t .resume s = (.rejected .not_paused, s)) ∧
    (∀ (cfg : PhaseConfig) (t : ℕ) (c : Command) (s : CycleState) (r : RejectReason),
        (handleCommand cfg t c s).1 = .rejected r →
        (handleCommand cfg t c s).2 = s) ∧
    (∀ (cfg : PhaseConfig) (t : ℕ) (s : CycleState),
        (handleCommand cfg t .emergencyStop s).1 = .accepted) := by
  refine ⟨?_, ?_, handleCommand_rejected_no_change, fun cfg t s => rfl⟩
  · intro cfg t s h
    simp [handleCommand, h]
  · intro cfg t s h
    simp [handleCommand, h]

/-- Witness for C8: `start` on the running scenario state is rejected with
`already_running` and no state change. -/
theorem commands_validated_before_effect_witness :
    handleCommand cfgScenario 0 .start sScenario =
      (.rejected .already_running, sScenario) :=
  commands_validated_before_effect.1 cfgScenario 0 sScenario rfl

end IBC
